import Mathlib

/-!
Shallow embedding of the threat-classification engine of the
`samtesura.github.io` repository.

Web-app side (`src/app.js`): `classifyAbility`, `classifyThreatTags`,
`classifyCC`, `analyzeThreats`, `getThreatIcon`.

Overlay side (`src/unnamed/part_002`, the `ThreatAnalyzer` object):
`CC_CLASSIFICATIONS`, `PRIORITY_ORDER`, `analyzeChampion`,
`findChampionSummary`, `analyzeAbility`, `analyzeFromTags`,
`sortByPriority`.

JavaScript arrays whose elements may be `null`/`undefined` are embedded as
`List (Option _)`; absent object fields are embedded as `Option` fields
with `none` for `undefined`.  `String.prototype.includes` and
`String.prototype.toLowerCase` are embedded character-list-wise
(the data is ASCII).  `Array.prototype.sort` (stable in ES2019+) with the
overlay's comparator is embedded as a stable insertion sort;
`localeCompare` on the ASCII labels is embedded as code-point order.
-/

/-- JS `pat` is a leading segment of `l` (character lists). -/
def listStartsWith : List Char → List Char → Bool
  | [], _ => true
  | _ :: _, [] => false
  | a :: as, b :: bs => a == b && listStartsWith as bs

/-- JS `String.prototype.includes` on character lists. -/
def listHasSub : List Char → List Char → Bool
  | [], pat => pat.isEmpty
  | l@(_ :: rest), pat => listStartsWith pat l || listHasSub rest pat

/-- JS `s.includes(pat)`. -/
def jsIncludes (s pat : String) : Bool :=
  listHasSub s.data pat.data

/-- JS `s.toLowerCase()` (ASCII-faithful). -/
def jsToLower (s : String) : String :=
  ⟨s.data.map Char.toLower⟩

/-- A classification record produced by the web app
(`src/app.js`, `ccClassifications` entries and `classifyCC` results).
`qssOnly`/`note` are absent (`undefined`) on most entries, hence `Option`. -/
structure Classification where
  type : String
  ccType : String
  cleansable : Bool
  qssOnly : Option Bool
  color : String
  note : Option String
deriving DecidableEq, Repr

/-- A spell (ability) as consumed by `classifyCC`:
`name` and `description` may be absent. -/
structure Spell where
  name : Option String
  description : Option String
deriving DecidableEq, Repr

/-- One entry of the curated per-champion summary: the
`{ threat: [...] }` object for one ability (`threat` may be absent). -/
structure AbilitySummary where
  threat : Option (List String)
deriving DecidableEq, Repr

/-- A curated summary entry for one champion: its per-ability list. -/
structure Summary where
  abilities : List AbilitySummary
deriving DecidableEq, Repr

/-- The `ccClassifications` object literal of
`src/app.js` `classifyThreatTags` (lines 617-665), as an association list. -/
def ccClassificationsTable : List (String × Classification) :=
  [ ("KNOCKUP", { type := "hard", ccType := "Knockup", cleansable := false, qssOnly := some false, color := "hard", note := none }),
    ("KNOCKBACK", { type := "hard", ccType := "Knockback", cleansable := false, qssOnly := some false, color := "hard", note := none }),
    ("PULL", { type := "hard", ccType := "Pull", cleansable := false, qssOnly := some false, color := "hard", note := none }),
    ("SUPPRESSION", { type := "suppression", ccType := "Suppression", cleansable := false, qssOnly := some true, color := "hard", note := none }),
    ("NEARSIGHT", { type := "hard", ccType := "Nearsight", cleansable := false, qssOnly := some false, color := "hard", note := none }),
    ("STUN", { type := "hard", ccType := "Stun", cleansable := true, qssOnly := none, color := "hard", note := none }),
    ("ROOT", { type := "hard", ccType := "Root", cleansable := true, qssOnly := none, color := "hard", note := none }),
    ("SNARE", { type := "hard", ccType := "Root", cleansable := true, qssOnly := none, color := "hard", note := none }),
    ("SLEEP", { type := "hard", ccType := "Sleep", cleansable := true, qssOnly := none, color := "hard", note := none }),
    ("CHARM", { type := "hard", ccType := "Charm", cleansable := true, qssOnly := none, color := "hard", note := none }),
    ("FEAR", { type := "hard", ccType := "Fear", cleansable := true, qssOnly := none, color := "hard", note := none }),
    ("TAUNT", { type := "hard", ccType := "Taunt", cleansable := true, qssOnly := none, color := "hard", note := none }),
    ("POLYMORPH", { type := "hard", ccType := "Polymorph", cleansable := true, qssOnly := none, color := "hard", note := none }),
    ("SLOW", { type := "soft", ccType := "Slow", cleansable := true, qssOnly := none, color := "soft", note := none }),
    ("SILENCE", { type := "soft", ccType := "Silence", cleansable := true, qssOnly := none, color := "soft", note := none }),
    ("BLIND", { type := "soft", ccType := "Blind", cleansable := true, qssOnly := none, color := "soft", note := none }),
    ("DISARM", { type := "soft", ccType := "Disarm", cleansable := true, qssOnly := none, color := "soft", note := none }),
    ("GROUNDED", { type := "soft", ccType := "Grounded", cleansable := true, qssOnly := none, color := "soft", note := none }),
    ("CRIPPLE", { type := "soft", ccType := "Cripple", cleansable := true, qssOnly := none, color := "soft", note := none }),
    ("GAP_CLOSE", { type := "high", ccType := "Mobility", cleansable := false, qssOnly := none, color := "high", note := none }),
    ("DASH", { type := "high", ccType := "Dash", cleansable := false, qssOnly := none, color := "high", note := none }),
    ("STEALTH", { type := "high", ccType := "Stealth", cleansable := false, qssOnly := none, color := "high", note := none }),
    ("DODGE", { type := "high", ccType := "Dodge", cleansable := false, qssOnly := none, color := "high", note := none }),
    ("PROJECTILE_BLOCK", { type := "high", ccType := "Projectile Block", cleansable := false, qssOnly := none, color := "high", note := none }),
    ("UNBREAKABLE_WALL", { type := "high", ccType := "Unbreakable Wall", cleansable := false, qssOnly := none, color := "high", note := none }),
    ("BURST", { type := "high", ccType := "Burst", cleansable := false, qssOnly := none, color := "high", note := none }),
    ("SHIELD_PEEL", { type := "medium", ccType := "Shield", cleansable := false, qssOnly := none, color := "medium", note := none }),
    ("SHIELD", { type := "medium", ccType := "Shield", cleansable := false, qssOnly := none, color := "medium", note := none }),
    ("BREAKABLE_WALL", { type := "medium", ccType := "Breakable Wall", cleansable := false, qssOnly := none, color := "medium", note := none }),
    ("REVEAL", { type := "medium", ccType := "Reveal", cleansable := false, qssOnly := none, color := "medium", note := none }),
    ("SUSTAIN", { type := "low", ccType := "Sustain", cleansable := false, qssOnly := none, color := "low", note := none }),
    ("GHOST", { type := "low", ccType := "Ghost", cleansable := false, qssOnly := none, color := "low", note := none }) ]

/-- JS object lookup `ccClassifications[ccType]`. -/
def ccClassifications (t : String) : Option Classification :=
  ccClassificationsTable.lookup t

/-- The `priorityOrder` array of `src/app.js` `classifyThreatTags`
(lines 668-676). -/
def priorityOrder : List String :=
  [ "SUPPRESSION", "NEARSIGHT",
    "KNOCKUP", "KNOCKBACK", "PULL",
    "STUN", "ROOT", "SNARE", "CHARM", "FEAR", "TAUNT", "SLEEP", "POLYMORPH",
    "SILENCE", "BLIND", "DISARM", "GROUNDED", "CRIPPLE", "SLOW",
    "DODGE", "PROJECTILE_BLOCK", "UNBREAKABLE_WALL", "STEALTH", "GAP_CLOSE", "DASH",
    "BREAKABLE_WALL", "REVEAL", "SHIELD_PEEL", "SHIELD",
    "SUSTAIN", "GHOST" ]

/-- `src/app.js` `classifyThreatTags` (lines 613-686): walk the fixed
priority order and push the table entry of every tag present in the input. -/
def classifyThreatTags (threatTags : List String) : List (Option Classification) :=
  if threatTags.isEmpty then []
  else (priorityOrder.filter (fun t => threatTags.contains t)).map ccClassifications

/-- The keyword cascade of `src/app.js` `classifyCC` (lines 697-897),
over the already lower-cased description and name; first match wins. -/
def classifyCCCore (desc nm : String) : Option Classification :=
  if jsIncludes desc "suppress" || jsIncludes desc "suppression" then
    some { type := "suppression", ccType := "Suppression", cleansable := false, qssOnly := some true, color := "hard", note := none }
  else if jsIncludes desc "knock" || jsIncludes desc "airborne" || jsIncludes nm "knock" then
    some { type := "hard", ccType := "Airborne", cleansable := false, qssOnly := none, color := "hard", note := some "Partial - disabling can be removed, not movement" }
  else if jsIncludes desc "pull" || jsIncludes desc "drag" then
    some { type := "hard", ccType := "Pull", cleansable := false, qssOnly := none, color := "hard", note := some "Partial - disabling can be removed, not movement" }
  else if jsIncludes desc "nearsight" || jsIncludes desc "blind zone" then
    some { type := "hard", ccType := "Nearsight", cleansable := false, qssOnly := none, color := "hard", note := none }
  else if jsIncludes desc "stun" then
    some { type := "soft", ccType := "Stun", cleansable := true, qssOnly := none, color := "soft", note := none }
  else if jsIncludes desc "root" || jsIncludes desc "immobilize" || jsIncludes desc "snare" then
    some { type := "soft", ccType := "Root", cleansable := true, qssOnly := none, color := "soft", note := none }
  else if jsIncludes desc "slow" then
    some { type := "soft", ccType := "Slow", cleansable := true, qssOnly := none, color := "soft", note := none }
  else if jsIncludes desc "charm" then
    some { type := "soft", ccType := "Charm", cleansable := true, qssOnly := none, color := "soft", note := none }
  else if jsIncludes desc "fear" || jsIncludes desc "flee" then
    some { type := "soft", ccType := "Fear", cleansable := true, qssOnly := none, color := "soft", note := none }
  else if jsIncludes desc "taunt" then
    some { type := "soft", ccType := "Taunt", cleansable := true, qssOnly := none, color := "soft", note := none }
  else if jsIncludes desc "silence" then
    some { type := "soft", ccType := "Silence", cleansable := true, qssOnly := none, color := "soft", note := none }
  else if jsIncludes desc "blind" then
    some { type := "soft", ccType := "Blind", cleansable := true, qssOnly := none, color := "soft", note := none }
  else if jsIncludes desc "disarm" then
    some { type := "soft", ccType := "Disarm", cleansable := true, qssOnly := none, color := "soft", note := none }
  else if jsIncludes desc "cripple" || (jsIncludes desc "attack speed" && jsIncludes desc "reduc") then
    some { type := "soft", ccType := "Cripple", cleansable := true, qssOnly := none, color := "soft", note := none }
  else if jsIncludes desc "sleep" || jsIncludes desc "drowsy" then
    some { type := "soft", ccType := "Sleep", cleansable := true, qssOnly := none, color := "soft", note := none }
  else if jsIncludes desc "dash" || jsIncludes desc "blink" || jsIncludes desc "leap" ||
      jsIncludes nm "dash" || jsIncludes nm "leap" then
    some { type := "high", ccType := "Mobility", cleansable := false, qssOnly := none, color := "high", note := none }
  else if jsIncludes desc "burst" || (jsIncludes desc "damage" && jsIncludes desc "bonus") ||
      jsIncludes desc "maximum health" || jsIncludes desc "missing health" then
    some { type := "high", ccType := "Burst", cleansable := false, qssOnly := none, color := "high", note := none }
  else if jsIncludes desc "stealth" || jsIncludes desc "invisible" || jsIncludes desc "camouflage" then
    some { type := "high", ccType := "Stealth", cleansable := false, qssOnly := none, color := "high", note := none }
  else if jsIncludes desc "shield" then
    some { type := "medium", ccType := "Shield", cleansable := false, qssOnly := none, color := "medium", note := none }
  else if jsIncludes desc "poke" then
    some { type := "medium", ccType := "Poke", cleansable := false, qssOnly := none, color := "medium", note := none }
  else if jsIncludes desc "heal" || jsIncludes desc "his maximum health" ||
      jsIncludes desc "her maximum health" || jsIncludes desc "regenerat" then
    some { type := "low", ccType := "Sustain", cleansable := false, qssOnly := none, color := "low", note := none }
  else none

/-- `src/app.js` `classifyCC` (lines 693-898): lower-case the optional
description and name (absent fields become the empty string) and run the
keyword cascade. -/
def classifyCC (spell : Spell) : Option Classification :=
  classifyCCCore ((spell.description.map jsToLower).getD "")
    ((spell.name.map jsToLower).getD "")

/-- The `nonCCThreats` array of `src/app.js` `classifyAbility` (line 594). -/
def nonCCThreats : List String :=
  ["Shield", "Sustain", "Burst", "Poke", "Stealth", "Mobility"]

/-- `src/app.js` `classifyAbility` (lines 579-606).  The returned JS array
may contain `null` (the `[descClassification]` push when
`descClassification` is `null`), hence elements of type
`Option Classification`. -/
def classifyAbility (spell : Spell) (summaryData : Option Summary)
    (abilityIndex : Nat) (allowFallbackCC : Bool) : List (Option Classification) :=
  let entry := summaryData.bind (fun s => s.abilities.get? abilityIndex)
  let hasAbilitySummary := entry.isSome
  let classifications :=
    match entry with
    | some a => classifyThreatTags (a.threat.getD [])
    | none => []
  if classifications.isEmpty then
    let descClassification := classifyCC spell
    if (match descClassification with
        | some c => nonCCThreats.contains c.ccType
        | none => false) then
      [descClassification]
    else if allowFallbackCC && !hasAbilitySummary then
      [descClassification]
    else []
  else classifications

/-- The `icons` object of `src/app.js` `getThreatIcon` (lines 1107-1150). -/
def threatIconTable : List (String × String) :=
  [ ("Knockup", "🌪️"), ("Knockback", "💨"), ("Pull", "🪝"),
    ("Suppression", "🔒"), ("Nearsight", "🌫️"),
    ("Stun", "⚡"), ("Root", "🌿"), ("Sleep", "😴"), ("Charm", "💕"),
    ("Fear", "😱"), ("Taunt", "😡"), ("Polymorph", "🐑"),
    ("Slow", "🐌"), ("Silence", "🤐"), ("Blind", "🙈"), ("Disarm", "🚫"),
    ("Grounded", "⚓"), ("Cripple", "🦴"),
    ("Mobility", "🏃"), ("Dash", "💨"), ("Stealth", "👻"), ("Dodge", "🌀"),
    ("Projectile Block", "🧱"), ("Unbreakable Wall", "🗿"),
    ("Shield", "🛡️"), ("Breakable Wall", "🧱"), ("Reveal", "👁️"),
    ("Sustain", "💚"), ("Ghost", "👤"),
    ("Airborne", "🌪️"), ("Burst", "💥"), ("Poke", "🎯") ]

/-- `src/app.js` `getThreatIcon` (lines 1107-1150). -/
def getThreatIcon (ccType : String) : String :=
  (threatIconTable.lookup ccType).getD "⚠️"

/-- A champion record: `id`, `name` and role `tags`. -/
structure Champion where
  id : String
  name : String
  tags : List String
deriving DecidableEq, Repr

/-- Champion detail data as consumed by `analyzeThreats`
(`detail.spells` may be absent). -/
structure Detail where
  spells : Option (List Spell)
deriving DecidableEq, Repr

/-- A threat record as built by `src/app.js` `analyzeThreats`
(lines 1088-1097). -/
structure Threat where
  label : String
  severity : String
  icon : String
  cleansable : Bool
  qssOnly : Bool
deriving DecidableEq, Repr

/-- The threat record built from one classification in
`src/app.js` `analyzeThreats` (lines 1088-1097). -/
def mkThreat (c : Classification) : Threat :=
  { label := c.ccType
    severity := if c.type = "hard" then "high"
      else if c.type = "suppression" then "high"
      else if c.type = "soft" then "medium"
      else c.type
    icon := getThreatIcon c.ccType
    cleansable := c.cleansable
    qssOnly := c.qssOnly.getD false }

/-- The inner `classifications.forEach` loop of `src/app.js`
`analyzeThreats` (lines 1086-1101): append each non-null classification
whose `ccType` has not been seen. -/
def processClassifications (cls : List (Option Classification))
    (acc : List Threat) (seen : List String) : List Threat × List String :=
  match cls with
  | [] => (acc, seen)
  | none :: rest => processClassifications rest acc seen
  | some c :: rest =>
    if seen.contains c.ccType then processClassifications rest acc seen
    else processClassifications rest (acc ++ [mkThreat c]) (seen ++ [c.ccType])

/-- The outer `spells.forEach` loop of `src/app.js` `analyzeThreats`
(lines 1081-1102), carrying the ability index and the seen-label set. -/
def processSpells (spells : List Spell) (i : Nat) (summaryData : Option Summary)
    (acc : List Threat) (seen : List String) : List Threat × List String :=
  match spells with
  | [] => (acc, seen)
  | s :: rest =>
    let p := processClassifications (classifyAbility s summaryData i true) acc seen
    processSpells rest (i + 1) summaryData p.1 p.2

/-- `src/app.js` `analyzeThreats` (lines 1073-1105).  The
`state.championsSummary` object is passed as a string-keyed lookup. -/
def analyzeThreats (detail : Detail) (champion : Champion)
    (championsSummary : String → Option Summary) : List Threat :=
  let summaryData := (championsSummary champion.name).orElse
    (fun _ => championsSummary champion.id)
  ((processSpells (detail.spells.getD []) 0 summaryData [] []).1).take 10

namespace ThreatAnalyzer

/-- An overlay classification record: one value of the
`ThreatAnalyzer.CC_CLASSIFICATIONS` object (`src/unnamed/part_002`,
lines 805-848).  `qssOnly` is present only on the `SUPPRESSION` entry. -/
structure OClass where
  type : String
  label : String
  cleansable : Bool
  qssOnly : Option Bool
  color : String
deriving DecidableEq, Repr

/-- `ThreatAnalyzer.CC_CLASSIFICATIONS` (`src/unnamed/part_002`,
lines 805-848), as an association list. -/
def ccTable : List (String × OClass) :=
  [ ("KNOCKUP", { type := "hard", label := "Knockup", cleansable := false, qssOnly := none, color := "hard" }),
    ("KNOCKBACK", { type := "hard", label := "Knockback", cleansable := false, qssOnly := none, color := "hard" }),
    ("PULL", { type := "hard", label := "Pull", cleansable := false, qssOnly := none, color := "hard" }),
    ("NEARSIGHT", { type := "hard", label := "Nearsight", cleansable := false, qssOnly := none, color := "hard" }),
    ("SUPPRESSION", { type := "suppression", label := "Suppression", cleansable := false, qssOnly := some true, color := "hard" }),
    ("STUN", { type := "hard", label := "Stun", cleansable := true, qssOnly := none, color := "hard" }),
    ("ROOT", { type := "hard", label := "Root", cleansable := true, qssOnly := none, color := "hard" }),
    ("SNARE", { type := "hard", label := "Root", cleansable := true, qssOnly := none, color := "hard" }),
    ("SLEEP", { type := "hard", label := "Sleep", cleansable := true, qssOnly := none, color := "hard" }),
    ("CHARM", { type := "hard", label := "Charm", cleansable := true, qssOnly := none, color := "hard" }),
    ("FEAR", { type := "hard", label := "Fear", cleansable := true, qssOnly := none, color := "hard" }),
    ("TAUNT", { type := "hard", label := "Taunt", cleansable := true, qssOnly := none, color := "hard" }),
    ("POLYMORPH", { type := "hard", label := "Polymorph", cleansable := true, qssOnly := none, color := "hard" }),
    ("SLOW", { type := "soft", label := "Slow", cleansable := true, qssOnly := none, color := "soft" }),
    ("SILENCE", { type := "soft", label := "Silence", cleansable := true, qssOnly := none, color := "soft" }),
    ("BLIND", { type := "soft", label := "Blind", cleansable := true, qssOnly := none, color := "soft" }),
    ("DISARM", { type := "soft", label := "Disarm", cleansable := true, qssOnly := none, color := "soft" }),
    ("GROUNDED", { type := "soft", label := "Grounded", cleansable := true, qssOnly := none, color := "soft" }),
    ("CRIPPLE", { type := "soft", label := "Cripple", cleansable := true, qssOnly := none, color := "soft" }),
    ("GAP_CLOSE", { type := "high", label := "Mobility", cleansable := false, qssOnly := none, color := "high" }),
    ("DASH", { type := "high", label := "Dash", cleansable := false, qssOnly := none, color := "high" }),
    ("STEALTH", { type := "high", label := "Stealth", cleansable := false, qssOnly := none, color := "high" }),
    ("DODGE", { type := "high", label := "Dodge", cleansable := false, qssOnly := none, color := "high" }),
    ("PROJECTILE_BLOCK", { type := "high", label := "Block", cleansable := false, qssOnly := none, color := "high" }),
    ("BURST", { type := "high", label := "Burst", cleansable := false, qssOnly := none, color := "high" }),
    ("SHIELD", { type := "medium", label := "Shield", cleansable := false, qssOnly := none, color := "medium" }),
    ("SHIELD_PEEL", { type := "medium", label := "Shield", cleansable := false, qssOnly := none, color := "medium" }),
    ("SUSTAIN", { type := "low", label := "Sustain", cleansable := false, qssOnly := none, color := "low" }),
    ("GHOST", { type := "low", label := "Ghost", cleansable := false, qssOnly := none, color := "low" }) ]

/-- JS object lookup `this.CC_CLASSIFICATIONS[tag]`. -/
def ccLookup (tag : String) : Option OClass :=
  ccTable.lookup tag

/-- A threat record flowing through `ThreatAnalyzer`: a spread
classification plus optional `abilityIndex`/`abilityKey`
(`src/unnamed/part_002`, lines 933-937), or a tag-fallback record
(lines 950-986) where those fields and `qssOnly` are absent. -/
structure OThreat where
  type : String
  label : String
  cleansable : Bool
  qssOnly : Option Bool
  color : String
  abilityIndex : Option Nat
  abilityKey : Option String
deriving DecidableEq, Repr

/-- `ThreatAnalyzer.analyzeAbility` (`src/unnamed/part_002`,
lines 922-942). -/
def analyzeAbility (ability : AbilitySummary) (index : Nat) : List OThreat :=
  match ability.threat with
  | none => []
  | some ts =>
    if ts.isEmpty then []
    else ts.filterMap (fun tag =>
      (ccLookup tag).map (fun c =>
        { type := c.type, label := c.label, cleansable := c.cleansable,
          qssOnly := c.qssOnly, color := c.color,
          abilityIndex := some index,
          abilityKey := (["Q", "W", "E", "R"] : List String).get? index }))

/-- `ThreatAnalyzer.analyzeFromTags` (`src/unnamed/part_002`,
lines 947-987): the role-tag fallback. -/
def analyzeFromTags (tags : List String) : List OThreat :=
  (if tags.contains "Assassin" then
    [{ type := "high", label := "Assassin", cleansable := false, qssOnly := none, color := "high", abilityIndex := none, abilityKey := none }]
  else []) ++
  (if tags.contains "Fighter" then
    [{ type := "medium", label := "Fighter", cleansable := false, qssOnly := none, color := "medium", abilityIndex := none, abilityKey := none }]
  else []) ++
  (if tags.contains "Tank" then
    [{ type := "medium", label := "Tank", cleansable := false, qssOnly := none, color := "medium", abilityIndex := none, abilityKey := none }]
  else []) ++
  (if tags.contains "Mage" then
    [{ type := "medium", label := "Mage", cleansable := false, qssOnly := none, color := "medium", abilityIndex := none, abilityKey := none }]
  else [])

/-- One champion entry of the array-format summary file
(`championsSummary.champions`): `name`, optional `slug`, abilities. -/
structure NamedSummary where
  name : String
  slug : Option String
  abilities : List AbilitySummary
deriving DecidableEq, Repr

/-- The two JSON shapes `ThreatAnalyzer.findChampionSummary` accepts
(`src/unnamed/part_002`, lines 906-917): an object with a `champions`
array, or a plain string-keyed object. -/
inductive ChampionsSummary where
  | arr (champions : List NamedSummary)
  | obj (entries : List (String × Summary))
deriving DecidableEq, Repr

/-- `ThreatAnalyzer.findChampionSummary` (`src/unnamed/part_002`,
lines 906-917). -/
def findChampionSummary (champion : Champion)
    (championsSummary : Option ChampionsSummary) : Option Summary :=
  match championsSummary with
  | none => none
  | some (.arr champions) =>
    (champions.find? (fun c => c.name == champion.name || c.slug == some champion.id)).map
      (fun c => ⟨c.abilities⟩)
  | some (.obj entries) =>
    (entries.lookup champion.name).orElse (fun _ => entries.lookup champion.id)

/-- The seen-label push loop shared by both phases of
`ThreatAnalyzer.analyzeChampion` (`src/unnamed/part_002`,
lines 879-884 and 891-896). -/
def pushUnseen (ts : List OThreat) (acc : List OThreat) (seen : List String) :
    List OThreat × List String :=
  match ts with
  | [] => (acc, seen)
  | t :: rest =>
    if seen.contains t.label then pushUnseen rest acc seen
    else pushUnseen rest (acc ++ [t]) (seen ++ [t.label])

/-- The `summary.abilities.forEach` phase of
`ThreatAnalyzer.analyzeChampion` (`src/unnamed/part_002`,
lines 875-886). -/
def summaryPhase (abilities : List AbilitySummary) (i : Nat)
    (acc : List OThreat) (seen : List String) : List OThreat × List String :=
  match abilities with
  | [] => (acc, seen)
  | a :: rest =>
    let p := pushUnseen (analyzeAbility a i) acc seen
    summaryPhase rest (i + 1) p.1 p.2

/-- The threats (and seen labels) collected from the curated summary by
`ThreatAnalyzer.analyzeChampion` before the role-tag fallback. -/
def summaryThreats (champion : Champion)
    (championsSummary : Option ChampionsSummary) : List OThreat × List String :=
  match findChampionSummary champion championsSummary with
  | some s => summaryPhase s.abilities 0 [] []
  | none => ([], [])

/-- The `typeOrder` bucket values of `ThreatAnalyzer.sortByPriority`
(`src/unnamed/part_002`, line 995): unknown types get 99. -/
def typeOrderVal (t : OThreat) : Nat :=
  if t.type = "hard" then 0
  else if t.type = "suppression" then 1
  else if t.type = "soft" then 2
  else if t.type = "high" then 3
  else if t.type = "medium" then 4
  else if t.type = "low" then 5
  else 99

/-- Code-point lexicographic "no later than" on character lists, the
embedding of `localeCompare(...) <= 0` for the ASCII labels. -/
def listCharLe : List Char → List Char → Bool
  | [], _ => true
  | _ :: _, [] => false
  | a :: as, b :: bs =>
    if a.toNat < b.toNat then true
    else if b.toNat < a.toNat then false
    else listCharLe as bs

/-- `a.localeCompare(b) <= 0` embedded as code-point order. -/
def labelLe (a b : String) : Bool :=
  listCharLe a.data b.data

/-- The comparator of `ThreatAnalyzer.sortByPriority` as a boolean
"a sorts no later than b": type bucket first, then `label`. -/
def oLe (a b : OThreat) : Bool :=
  decide (typeOrderVal a < typeOrderVal b) ||
    (decide (typeOrderVal a = typeOrderVal b) && labelLe a.label b.label)

/-- Stable insertion of one element for the embedded `Array.sort`. -/
def insertSorted (a : OThreat) : List OThreat → List OThreat
  | [] => [a]
  | b :: bs => if oLe a b then a :: b :: bs else b :: insertSorted a bs

/-- `ThreatAnalyzer.sortByPriority` (`src/unnamed/part_002`,
lines 992-1006): stable sort by the comparator `oLe`. -/
def sortByPriority : List OThreat → List OThreat
  | [] => []
  | a :: as => insertSorted a (sortByPriority as)

/-- `ThreatAnalyzer.analyzeChampion` (`src/unnamed/part_002`,
lines 866-901). -/
def analyzeChampion (champion : Option Champion)
    (championsSummary : Option ChampionsSummary) : List OThreat :=
  match champion with
  | none => []
  | some champ =>
    let p := summaryThreats champ championsSummary
    let threats :=
      if p.1.isEmpty then (pushUnseen (analyzeFromTags champ.tags) p.1 p.2).1
      else p.1
    sortByPriority threats

end ThreatAnalyzer


/-- The closed list of results the keyword cascade can produce (each
branch of `classifyCC` returns one of these literals, or `none`). -/
def classifyCCResults : List (Option Classification) :=
  [ none,
    some { type := "suppression", ccType := "Suppression", cleansable := false, qssOnly := some true, color := "hard", note := none },
    some { type := "hard", ccType := "Airborne", cleansable := false, qssOnly := none, color := "hard", note := some "Partial - disabling can be removed, not movement" },
    some { type := "hard", ccType := "Pull", cleansable := false, qssOnly := none, color := "hard", note := some "Partial - disabling can be removed, not movement" },
    some { type := "hard", ccType := "Nearsight", cleansable := false, qssOnly := none, color := "hard", note := none },
    some { type := "soft", ccType := "Stun", cleansable := true, qssOnly := none, color := "soft", note := none },
    some { type := "soft", ccType := "Root", cleansable := true, qssOnly := none, color := "soft", note := none },
    some { type := "soft", ccType := "Slow", cleansable := true, qssOnly := none, color := "soft", note := none },
    some { type := "soft", ccType := "Charm", cleansable := true, qssOnly := none, color := "soft", note := none },
    some { type := "soft", ccType := "Fear", cleansable := true, qssOnly := none, color := "soft", note := none },
    some { type := "soft", ccType := "Taunt", cleansable := true, qssOnly := none, color := "soft", note := none },
    some { type := "soft", ccType := "Silence", cleansable := true, qssOnly := none, color := "soft", note := none },
    some { type := "soft", ccType := "Blind", cleansable := true, qssOnly := none, color := "soft", note := none },
    some { type := "soft", ccType := "Disarm", cleansable := true, qssOnly := none, color := "soft", note := none },
    some { type := "soft", ccType := "Cripple", cleansable := true, qssOnly := none, color := "soft", note := none },
    some { type := "soft", ccType := "Sleep", cleansable := true, qssOnly := none, color := "soft", note := none },
    some { type := "high", ccType := "Mobility", cleansable := false, qssOnly := none, color := "high", note := none },
    some { type := "high", ccType := "Burst", cleansable := false, qssOnly := none, color := "high", note := none },
    some { type := "high", ccType := "Stealth", cleansable := false, qssOnly := none, color := "high", note := none },
    some { type := "medium", ccType := "Shield", cleansable := false, qssOnly := none, color := "medium", note := none },
    some { type := "medium", ccType := "Poke", cleansable := false, qssOnly := none, color := "medium", note := none },
    some { type := "low", ccType := "Sustain", cleansable := false, qssOnly := none, color := "low", note := none } ]

/-- Spec-side severity rank of a classification, following the claim's
wording: suppression and non-cleansable hard CC rank 0, cleansable hard
CC rank 1, soft CC rank 2, then high/medium/low threats. -/
def specSeverityRank (c : Classification) : Nat :=
  if c.type = "suppression" then 0
  else if c.type = "hard" then (if c.cleansable then 1 else 0)
  else if c.type = "soft" then 2
  else if c.type = "high" then 3
  else if c.type = "medium" then 4
  else 5

/-- Spec-side severity rank of a possibly-null array element. -/
def specRankEntry : Option Classification → Nat
  | none => 6
  | some c => specSeverityRank c

/-- The spec-side `qssOnly` invariant of one classification value:
`qssOnly` is `true` exactly on suppression-type classifications. -/
def qssOnlyOk : Option Classification → Bool
  | none => true
  | some c => decide (c.qssOnly = some true ↔ c.type = "suppression")

lemma lookup_mem_values {β : Type} (l : List (String × β)) (k : String) (v : β)
    (h : l.lookup k = some v) : v ∈ l.map Prod.snd := by
  induction l with
  | nil => simp [List.lookup] at h
  | cons p rest ih =>
    rw [List.lookup] at h
    by_cases hk : k == p.1
    · simp [hk] at h
      subst h
      exact List.mem_map.mpr ⟨p, List.mem_cons_self p rest, rfl⟩
    · simp [hk] at h
      exact List.mem_cons_of_mem _ (ih h)

lemma classifyThreatTags_eq (tags : List String) :
    classifyThreatTags tags =
      (priorityOrder.filter (fun t => tags.contains t)).map ccClassifications := by
  cases tags with
  | nil => rfl
  | cons a as => rfl

lemma contains_eq_of_mem_iff {l₁ l₂ : List String}
    (h : ∀ t, t ∈ l₁ ↔ t ∈ l₂) (t : String) : l₁.contains t = l₂.contains t := by
  by_cases hm : t ∈ l₁
  · have hm2 : t ∈ l₂ := (h t).mp hm
    simp [List.contains, List.elem_eq_mem, hm, hm2]
  · have hm2 : t ∉ l₂ := fun hh => hm ((h t).mpr hh)
    simp [List.contains, List.elem_eq_mem, hm, hm2]

lemma classifyThreatTags_mem_invariant {l₁ l₂ : List String}
    (h : ∀ t, t ∈ l₁ ↔ t ∈ l₂) : classifyThreatTags l₁ = classifyThreatTags l₂ := by
  rw [classifyThreatTags_eq, classifyThreatTags_eq]
  congr 1
  exact List.filter_congr (fun t _ => contains_eq_of_mem_iff h t)

lemma priorityRow_sorted :
    ((priorityOrder.map ccClassifications).map specRankEntry).Pairwise (· ≤ ·) := by
  decide

lemma classifyThreatTags_rank_sorted (tags : List String) :
    ((classifyThreatTags tags).map specRankEntry).Pairwise (· ≤ ·) := by
  rw [classifyThreatTags_eq]
  have hs : List.Sublist (priorityOrder.filter (fun t => tags.contains t)) priorityOrder :=
    List.filter_sublist _
  exact List.Pairwise.sublist ((hs.map ccClassifications).map specRankEntry) priorityRow_sorted

lemma ite_mem_of {α : Type} {c : Prop} [Decidable c] {x y : α} {L : List α}
    (hx : x ∈ L) (hy : y ∈ L) : (if c then x else y) ∈ L := by
  by_cases h : c
  · simpa [h] using hx
  · simpa [h] using hy

lemma classifyCCCore_mem (desc nm : String) :
    classifyCCCore desc nm ∈ classifyCCResults := by
  unfold classifyCCCore
  exact (ite_mem_of (by decide)
    (ite_mem_of (by decide)
    (ite_mem_of (by decide)
    (ite_mem_of (by decide)
    (ite_mem_of (by decide)
    (ite_mem_of (by decide)
    (ite_mem_of (by decide)
    (ite_mem_of (by decide)
    (ite_mem_of (by decide)
    (ite_mem_of (by decide)
    (ite_mem_of (by decide)
    (ite_mem_of (by decide)
    (ite_mem_of (by decide)
    (ite_mem_of (by decide)
    (ite_mem_of (by decide)
    (ite_mem_of (by decide)
    (ite_mem_of (by decide)
    (ite_mem_of (by decide)
    (ite_mem_of (by decide)
    (ite_mem_of (by decide)
    (ite_mem_of (by decide)
    (by decide))))))))))))))))))))))

lemma classifyCC_mem (spell : Spell) : classifyCC spell ∈ classifyCCResults := by
  exact classifyCCCore_mem _ _

lemma classifyCCResults_qssOnlyOk :
    ∀ o ∈ classifyCCResults, qssOnlyOk o = true := by
  decide

lemma classifyCC_qssOnly (spell : Spell) (c : Classification)
    (h : classifyCC spell = some c) :
    c.qssOnly = some true ↔ c.type = "suppression" := by
  have hm := classifyCC_mem spell
  rw [h] at hm
  have := classifyCCResults_qssOnlyOk _ hm
  simpa [qssOnlyOk] using this

lemma ccClassifications_qssOnly (t : String) (c : Classification)
    (h : ccClassifications t = some c) :
    c.qssOnly = some true ↔ c.type = "suppression" := by
  have hv : c ∈ ccClassificationsTable.map Prod.snd :=
    lookup_mem_values _ _ _ h
  have hall : ∀ v ∈ ccClassificationsTable.map Prod.snd,
      qssOnlyOk (some v) = true := by decide
  have := hall _ hv
  simpa [qssOnlyOk] using this

lemma processClassifications_inv (cls : List (Option Classification)) :
    ∀ acc seen,
      (∀ t ∈ acc, t.label ∈ seen) →
      acc.Pairwise (fun a b => a.label ≠ b.label) →
      (∀ t ∈ (processClassifications cls acc seen).1,
          t.label ∈ (processClassifications cls acc seen).2) ∧
      (processClassifications cls acc seen).1.Pairwise (fun a b => a.label ≠ b.label) := by
  induction cls with
  | nil => intro acc seen h1 h2; exact ⟨h1, h2⟩
  | cons c rest ih =>
    intro acc seen h1 h2
    match c with
    | none =>
      rw [processClassifications]
      exact ih acc seen h1 h2
    | some c =>
      rw [processClassifications]
      by_cases hc : seen.contains c.ccType
      · rw [if_pos hc]
        exact ih acc seen h1 h2
      · rw [if_neg hc]
        have hnotin : c.ccType ∉ seen := by
          intro hmem
          exact hc (by simpa [List.contains, List.elem_eq_mem] using hmem)
        apply ih
        · intro t ht
          rcases List.mem_append.mp ht with h | h
          · exact List.mem_append.mpr (Or.inl (h1 t h))
          · rcases List.mem_singleton.mp h with rfl
            exact List.mem_append.mpr (Or.inr (by simp [mkThreat]))
        · rw [List.pairwise_append]
          refine ⟨h2, List.pairwise_singleton _ _, ?_⟩
          intro a ha b hb
          rcases List.mem_singleton.mp hb with rfl
          intro hlab
          apply hnotin
          have hm := h1 a ha
          rw [hlab] at hm
          simpa [mkThreat] using hm

lemma processSpells_inv (spells : List Spell) :
    ∀ i sd acc seen,
      (∀ t ∈ acc, t.label ∈ seen) →
      acc.Pairwise (fun a b => a.label ≠ b.label) →
      (∀ t ∈ (processSpells spells i sd acc seen).1,
          t.label ∈ (processSpells spells i sd acc seen).2) ∧
      (processSpells spells i sd acc seen).1.Pairwise (fun a b => a.label ≠ b.label) := by
  induction spells with
  | nil => intro i sd acc seen h1 h2; exact ⟨h1, h2⟩
  | cons s rest ih =>
    intro i sd acc seen h1 h2
    rw [processSpells]
    have hp := processClassifications_inv (classifyAbility s sd i true) acc seen h1 h2
    exact ih _ _ _ _ hp.1 hp.2

lemma analyzeThreats_labels_distinct (detail : Detail) (champion : Champion)
    (cs : String → Option Summary) :
    (analyzeThreats detail champion cs).Pairwise (fun a b => a.label ≠ b.label) := by
  unfold analyzeThreats
  have h := processSpells_inv (detail.spells.getD []) 0
    ((cs champion.name).orElse (fun _ => cs champion.id)) [] []
    (by intro t ht; cases ht) List.Pairwise.nil
  exact List.Pairwise.sublist (List.take_sublist _ _) h.2

lemma analyzeThreats_length_le (detail : Detail) (champion : Champion)
    (cs : String → Option Summary) :
    (analyzeThreats detail champion cs).length ≤ 10 := by
  unfold analyzeThreats
  simp [List.length_take_le]

namespace ThreatAnalyzer

lemma listCharLe_total : ∀ (l₁ l₂ : List Char),
    listCharLe l₁ l₂ = true ∨ listCharLe l₂ l₁ = true := by
  intro l₁
  induction l₁ with
  | nil => intro l₂; left; rfl
  | cons a as ih =>
    intro l₂
    cases l₂ with
    | nil => right; rfl
    | cons b bs =>
      rw [listCharLe, listCharLe]
      rcases Nat.lt_trichotomy a.toNat b.toNat with h | h | h
      · left; rw [if_pos h]
      · rw [if_neg (by omega), if_neg (by omega), if_neg (by omega), if_neg (by omega)]
        exact ih bs
      · right; rw [if_pos h]

lemma listCharLe_trans : ∀ (l₁ l₂ l₃ : List Char),
    listCharLe l₁ l₂ = true → listCharLe l₂ l₃ = true → listCharLe l₁ l₃ = true := by
  intro l₁
  induction l₁ with
  | nil => intro l₂ l₃ _ _; rfl
  | cons a as ih =>
    intro l₂ l₃ h12 h23
    cases l₂ with
    | nil => simp [listCharLe] at h12
    | cons b bs =>
      cases l₃ with
      | nil => simp [listCharLe] at h23
      | cons c cs =>
        rw [listCharLe] at h12 h23 ⊢
        rcases Nat.lt_trichotomy a.toNat b.toNat with hab | hab | hab
        · rcases Nat.lt_trichotomy b.toNat c.toNat with hbc | hbc | hbc
          · rw [if_pos (by omega)]
          · rw [if_pos (by omega)]
          · rw [if_neg (by omega), if_pos hbc] at h23
            exact absurd h23 (by simp)
        · rcases Nat.lt_trichotomy b.toNat c.toNat with hbc | hbc | hbc
          · rw [if_pos (by omega)]
          · rw [if_neg (by omega), if_neg (by omega)]
            rw [if_neg (by omega), if_neg (by omega)] at h12
            rw [if_neg (by omega), if_neg (by omega)] at h23
            exact ih bs cs h12 h23
          · rw [if_neg (by omega), if_pos hbc] at h23
            exact absurd h23 (by simp)
        · rw [if_neg (by omega), if_pos hab] at h12
          exact absurd h12 (by simp)

lemma oLe_total (a b : OThreat) : oLe a b = true ∨ oLe b a = true := by
  unfold oLe labelLe
  rcases Nat.lt_trichotomy (typeOrderVal a) (typeOrderVal b) with h | h | h
  · left; simp [h]
  · rcases listCharLe_total a.label.data b.label.data with h' | h'
    · left; simp [h, h']
    · right; simp [h, h']
  · right; simp [h]

lemma oLe_trans {a b c : OThreat}
    (h1 : oLe a b = true) (h2 : oLe b c = true) : oLe a c = true := by
  unfold oLe labelLe at h1 h2 ⊢
  simp only [Bool.or_eq_true, Bool.and_eq_true, decide_eq_true_eq] at h1 h2 ⊢
  rcases h1 with h1 | ⟨h1e, h1l⟩ <;> rcases h2 with h2 | ⟨h2e, h2l⟩
  · left; omega
  · left; omega
  · left; omega
  · exact Or.inr ⟨h1e.trans h2e, listCharLe_trans _ _ _ h1l h2l⟩

lemma mem_insertSorted {x a : OThreat} :
    ∀ {l : List OThreat}, x ∈ insertSorted a l → x = a ∨ x ∈ l := by
  intro l
  induction l with
  | nil =>
    intro h
    rcases List.mem_singleton.mp h with rfl
    exact Or.inl rfl
  | cons b bs ih =>
    intro h
    rw [insertSorted] at h
    by_cases hab : oLe a b = true
    · rw [if_pos hab] at h
      rcases List.mem_cons.mp h with rfl | h
      · exact Or.inl rfl
      · exact Or.inr h
    · rw [if_neg hab] at h
      rcases List.mem_cons.mp h with rfl | h
      · exact Or.inr (List.mem_cons_self _ _)
      · rcases ih h with rfl | h'
        · exact Or.inl rfl
        · exact Or.inr (List.mem_cons_of_mem _ h')

lemma insertSorted_pairwise {a : OThreat} :
    ∀ {l : List OThreat},
      l.Pairwise (fun x y => oLe x y = true) →
      (insertSorted a l).Pairwise (fun x y => oLe x y = true) := by
  intro l
  induction l with
  | nil => intro _; exact List.pairwise_singleton _ _
  | cons b bs ih =>
    intro h
    rw [List.pairwise_cons] at h
    obtain ⟨hb, hbs⟩ := h
    rw [insertSorted]
    by_cases hab : oLe a b = true
    · rw [if_pos hab, List.pairwise_cons]
      refine ⟨?_, List.pairwise_cons.mpr ⟨hb, hbs⟩⟩
      intro x hx
      rcases List.mem_cons.mp hx with rfl | hx
      · exact hab
      · exact oLe_trans hab (hb x hx)
    · rw [if_neg hab, List.pairwise_cons]
      refine ⟨?_, ih hbs⟩
      intro x hx
      rcases mem_insertSorted hx with rfl | hx
      · rcases oLe_total b x with h' | h'
        · exact h'
        · exact absurd h' hab
      · exact hb x hx

lemma sortByPriority_pairwise (l : List OThreat) :
    (sortByPriority l).Pairwise (fun x y => oLe x y = true) := by
  induction l with
  | nil => exact List.Pairwise.nil
  | cons a as ih =>
    rw [sortByPriority]
    exact insertSorted_pairwise ih

lemma insertSorted_perm (a : OThreat) :
    ∀ (l : List OThreat), (insertSorted a l).Perm (a :: l) := by
  intro l
  induction l with
  | nil => exact List.Perm.refl _
  | cons b bs ih =>
    rw [insertSorted]
    by_cases hab : oLe a b = true
    · rw [if_pos hab]
    · rw [if_neg hab]
      exact (List.Perm.cons b ih).trans (List.Perm.swap a b bs)

lemma sortByPriority_perm (l : List OThreat) : (sortByPriority l).Perm l := by
  induction l with
  | nil => exact List.Perm.refl _
  | cons a as ih =>
    rw [sortByPriority]
    exact (insertSorted_perm a (sortByPriority as)).trans (List.Perm.cons a ih)

lemma pushUnseen_inv (ts : List OThreat) :
    ∀ acc seen,
      (∀ t ∈ acc, t.label ∈ seen) →
      acc.Pairwise (fun a b => a.label ≠ b.label) →
      (∀ t ∈ (pushUnseen ts acc seen).1, t.label ∈ (pushUnseen ts acc seen).2) ∧
      (pushUnseen ts acc seen).1.Pairwise (fun a b => a.label ≠ b.label) := by
  induction ts with
  | nil => intro acc seen h1 h2; exact ⟨h1, h2⟩
  | cons t rest ih =>
    intro acc seen h1 h2
    rw [pushUnseen]
    by_cases hc : seen.contains t.label
    · rw [if_pos hc]
      exact ih acc seen h1 h2
    · rw [if_neg hc]
      have hnotin : t.label ∉ seen := by
        intro hmem
        exact hc (by simpa [List.contains, List.elem_eq_mem] using hmem)
      apply ih
      · intro x hx
        rcases List.mem_append.mp hx with h | h
        · exact List.mem_append.mpr (Or.inl (h1 x h))
        · rcases List.mem_singleton.mp h with rfl
          exact List.mem_append.mpr (Or.inr (by simp))
      · rw [List.pairwise_append]
        refine ⟨h2, List.pairwise_singleton _ _, ?_⟩
        intro a ha b hb
        rcases List.mem_singleton.mp hb with rfl
        intro hlab
        exact hnotin (hlab ▸ h1 a ha)

lemma summaryPhase_inv (abilities : List AbilitySummary) :
    ∀ i acc seen,
      (∀ t ∈ acc, t.label ∈ seen) →
      acc.Pairwise (fun a b => a.label ≠ b.label) →
      (∀ t ∈ (summaryPhase abilities i acc seen).1,
          t.label ∈ (summaryPhase abilities i acc seen).2) ∧
      (summaryPhase abilities i acc seen).1.Pairwise (fun a b => a.label ≠ b.label) := by
  induction abilities with
  | nil => intro i acc seen h1 h2; exact ⟨h1, h2⟩
  | cons a rest ih =>
    intro i acc seen h1 h2
    rw [summaryPhase]
    have hp := pushUnseen_inv (analyzeAbility a i) acc seen h1 h2
    exact ih _ _ _ hp.1 hp.2

lemma analyzeChampion_labels_distinct (champion : Option Champion)
    (cs : Option ChampionsSummary) :
    (analyzeChampion champion cs).Pairwise (fun a b => a.label ≠ b.label) := by
  cases champion with
  | none => exact List.Pairwise.nil
  | some champ =>
    simp only [analyzeChampion]
    have hst : (∀ t ∈ (summaryThreats champ cs).1,
          t.label ∈ (summaryThreats champ cs).2) ∧
        (summaryThreats champ cs).1.Pairwise (fun a b => a.label ≠ b.label) := by
      unfold summaryThreats
      match findChampionSummary champ cs with
      | some s =>
        exact summaryPhase_inv s.abilities 0 [] []
          (by intro t ht; cases ht) List.Pairwise.nil
      | none => exact ⟨(fun t ht => absurd ht (List.not_mem_nil t)), List.Pairwise.nil⟩
    have key : ∀ threats : List OThreat,
        threats.Pairwise (fun a b => a.label ≠ b.label) →
        (sortByPriority threats).Pairwise (fun a b => a.label ≠ b.label) :=
      fun threats h =>
        ((sortByPriority_perm threats).pairwise_iff (fun hr e => hr e.symm)).mpr h
    apply key
    split
    · exact (pushUnseen_inv (analyzeFromTags champ.tags)
        (summaryThreats champ cs).1 (summaryThreats champ cs).2 hst.1 hst.2).2
    · exact hst.2

lemma oLe_typeOrder_le {a b : OThreat} (h : oLe a b = true) :
    typeOrderVal a ≤ typeOrderVal b := by
  unfold oLe at h
  simp only [Bool.or_eq_true, Bool.and_eq_true, decide_eq_true_eq] at h
  rcases h with h | ⟨h, _⟩
  · omega
  · omega

lemma sortByPriority_typeOrder_sorted (l : List OThreat) :
    ((sortByPriority l).map typeOrderVal).Pairwise (· ≤ ·) := by
  exact List.Pairwise.map typeOrderVal (fun a b h => oLe_typeOrder_le h)
    (sortByPriority_pairwise l)

end ThreatAnalyzer

/-- C1: an ability with no curated threat tags and no keyword match never
throws, but only the `allowTextFallback = false` path returns an empty
sequence: with the flag set, `classifyAbility` returns the length-one
array `[null]` (the `[descClassification]` push with a `null`
classification), contradicting the function's own doc comment
("Returns array of classification objects or empty array if no threats
found").  This theorem evaluates the code at the failing input. -/
theorem C1_no_threat_fallback_eval :
    classifyAbility ⟨none, none⟩ none 0 true = [none] ∧
    classifyAbility ⟨none, none⟩ none 0 false = [] := by
  decide

/-- C2: when a curated summary entry exists for the ability, a non-empty
tag-based result is returned exactly as produced by `classifyThreatTags`,
and every classification in the output either comes from the tag-based
classifier or is a non-CC threat — the text cascade never contributes a
CC-type classification for an ability that has a curated entry. -/
theorem C2_curated_precedence (spell : Spell) (sd : Summary) (idx : Nat)
    (flag : Bool) (a : AbilitySummary) (ha : sd.abilities.get? idx = some a) :
    (classifyThreatTags (a.threat.getD []) ≠ [] →
      classifyAbility spell (some sd) idx flag =
        classifyThreatTags (a.threat.getD [])) ∧
    (∀ c : Classification, some c ∈ classifyAbility spell (some sd) idx flag →
      some c ∈ classifyThreatTags (a.threat.getD []) ∨
        nonCCThreats.contains c.ccType = true) := by
  constructor
  · intro hne
    simp only [classifyAbility, Option.some_bind, ha]
    rw [if_neg (by simpa [List.isEmpty_iff] using hne)]
  · intro c hc
    simp only [classifyAbility, Option.some_bind, ha, Option.isSome_some,
      Bool.not_true, Bool.and_false] at hc
    by_cases hne : (classifyThreatTags (a.threat.getD [])).isEmpty
    · rw [if_pos hne] at hc
      split at hc
      · rcases List.mem_singleton.mp hc with h
        rename_i hP
        cases hd : classifyCC spell with
        | none => rw [hd] at h; cases h
        | some d =>
          rw [hd] at h hP
          cases Option.some_inj.mp h
          exact Or.inr hP
      · rw [if_neg (by simp)] at hc
        cases hc
    · rw [if_neg hne] at hc
      exact Or.inl hc

/-- C2 witness: a concrete ability whose curated entry carries the STUN
tag is classified exactly by the tag-based classifier. -/
theorem C2_curated_precedence_witness :
    classifyAbility ⟨some "W", some "whatever text"⟩
      (some ⟨[⟨some ["STUN"]⟩]⟩) 0 true = classifyThreatTags ["STUN"] :=
  (C2_curated_precedence ⟨some "W", some "whatever text"⟩ ⟨[⟨some ["STUN"]⟩]⟩
    0 true ⟨some ["STUN"]⟩ rfl).1 (by decide)

/-- C3 counterexample: the tag `BURST` is recognized by the lookup table
(`ccClassifications['BURST']` exists) yet `classifyThreatTags` produces
zero classifications for it, because `BURST` is missing from the
`priorityOrder` array — so the classifier does not return one
classification per recognized tag. -/
theorem C3_burst_dropped_counterexample :
    (ccClassifications "BURST").isSome = true ∧
    classifyThreatTags ["BURST"] = [] := by
  decide

/-- C3 amended: `classifyThreatTags` returns one classification per tag
present in the `priorityOrder` list (not per tag in the lookup table:
`BURST` is in the table but absent from the priority list and dropped),
its output depends only on membership in the input (so any permutation
of the same tag set yields identical output), and on
`["KNOCKUP", "SLOW"]` it returns exactly the Knockup and Slow
classifications in that order. -/
theorem C3_priority_iteration_amended :
    (∀ l₁ l₂ : List String, (∀ t, t ∈ l₁ ↔ t ∈ l₂) →
      classifyThreatTags l₁ = classifyThreatTags l₂) ∧
    (∀ l : List String, (classifyThreatTags l).length =
      (priorityOrder.filter (fun t => l.contains t)).length) ∧
    classifyThreatTags ["KNOCKUP", "SLOW"] =
      [ some { type := "hard", ccType := "Knockup", cleansable := false, qssOnly := some false, color := "hard", note := none },
        some { type := "soft", ccType := "Slow", cleansable := true, qssOnly := none, color := "soft", note := none } ] := by
  refine ⟨fun l₁ l₂ h => classifyThreatTags_mem_invariant h, fun l => ?_, by decide⟩
  rw [classifyThreatTags_eq, List.length_map]

/-- C3 witness: the two orderings of the same tag set produce identical
output. -/
theorem C3_priority_iteration_witness :
    classifyThreatTags ["SLOW", "KNOCKUP"] = classifyThreatTags ["KNOCKUP", "SLOW"] :=
  C3_priority_iteration_amended.1 ["SLOW", "KNOCKUP"] ["KNOCKUP", "SLOW"]
    (by intro t; simp [List.mem_cons]; tauto)

/-- C4 counterexample: a description containing both "charm" and "slow"
is classified as Slow, not Charm — the `slow` keyword check precedes the
`charm` check in the cascade, contrary to the claimed order. -/
theorem C4_charm_slow_counterexample :
    classifyCC ⟨some "", some "charm slow"⟩ =
      some { type := "soft", ccType := "Slow", cleansable := true, qssOnly := none, color := "soft", note := none } ∧
    classifyCC ⟨some "", some "charm slow"⟩ ≠
      some { type := "soft", ccType := "Charm", cleansable := true, qssOnly := none, color := "soft", note := none } := by
  decide

/-- C4 amended: the cascade order is suppression; knock/airborne;
pull/drag; nearsight; stun; root/immobilize/snare; slow; charm;
fear/flee; taunt; silence; blind; disarm; cripple; sleep/drowsy; then the
non-CC cues — so "suppress"+"stun" yields Suppression (`qssOnly` true,
not cleansable), "stun"+"knock" yields Airborne, "charm"+"slow" yields
Slow, and "sleep"+"cripple" yields Cripple. -/
theorem C4_cascade_order_amended :
    classifyCC ⟨some "", some "suppress and stun"⟩ =
      some { type := "suppression", ccType := "Suppression", cleansable := false, qssOnly := some true, color := "hard", note := none } ∧
    classifyCC ⟨some "", some "stun and knock up"⟩ =
      some { type := "hard", ccType := "Airborne", cleansable := false, qssOnly := none, color := "hard", note := some "Partial - disabling can be removed, not movement" } ∧
    classifyCC ⟨some "", some "charm slow"⟩ =
      some { type := "soft", ccType := "Slow", cleansable := true, qssOnly := none, color := "soft", note := none } ∧
    classifyCC ⟨some "", some "sleep cripple"⟩ =
      some { type := "soft", ccType := "Cripple", cleansable := true, qssOnly := none, color := "soft", note := none } := by
  decide

/-- C5 counterexample: on "Deals damage and stuns the target for 1.5
seconds" the text classifier returns the Stun classification with
`type = "soft"`, not `"hard"` as claimed. -/
theorem C5_stun_soft_counterexample :
    classifyCC ⟨some "Q", some "Deals damage and stuns the target for 1.5 seconds"⟩ =
      some { type := "soft", ccType := "Stun", cleansable := true, qssOnly := none, color := "soft", note := none } ∧
    Option.map Classification.type
      (classifyCC ⟨some "Q", some "Deals damage and stuns the target for 1.5 seconds"⟩) ≠
      some "hard" := by
  decide

/-- C5 amended: on that description the text classifier returns a single
classification with label "Stun", kind "soft" and `cleansable = true`
(the `classifyCC` cascade files stun under its cleansable "soft" bucket). -/
theorem C5_stun_classification_amended :
    classifyCC ⟨some "Q", some "Deals damage and stuns the target for 1.5 seconds"⟩ =
      some { type := "soft", ccType := "Stun", cleansable := true, qssOnly := none, color := "soft", note := none } := by
  decide

/-- C6 counterexample: the overlay's `sortByPriority` places the
cleansable hard CC Stun (type bucket `hard` = 0) before Suppression
(bucket `suppression` = 1), so its sorted output does not rank
suppression above cleansable hard CC. -/
theorem C6_overlay_order_counterexample :
    ThreatAnalyzer.sortByPriority
      [ { type := "suppression", label := "Suppression", cleansable := false, qssOnly := some true, color := "hard", abilityIndex := none, abilityKey := none },
        { type := "hard", label := "Stun", cleansable := true, qssOnly := none, color := "hard", abilityIndex := none, abilityKey := none } ] =
      [ { type := "hard", label := "Stun", cleansable := true, qssOnly := none, color := "hard", abilityIndex := none, abilityKey := none },
        { type := "suppression", label := "Suppression", cleansable := false, qssOnly := some true, color := "hard", abilityIndex := none, abilityKey := none } ] := by
  decide

/-- C6 amended: the web app's tag classifier emits classifications in
nonincreasing threat class (suppression and non-cleansable hard CC, then
cleansable hard CC, then soft CC, then high/medium/low non-CC threats);
the overlay's `sortByPriority` instead orders by its type buckets
`hard < suppression < soft < high < medium < low`, so all hard CC —
cleansable or not — precedes suppression there. -/
theorem C6_threat_order_amended :
    (∀ tags : List String,
      ((classifyThreatTags tags).map specRankEntry).Pairwise (· ≤ ·)) ∧
    (∀ l : List ThreatAnalyzer.OThreat,
      ((ThreatAnalyzer.sortByPriority l).map ThreatAnalyzer.typeOrderVal).Pairwise (· ≤ ·)) :=
  ⟨classifyThreatTags_rank_sorted, ThreatAnalyzer.sortByPriority_typeOrder_sorted⟩

/-- C7 counterexample: the overlay's `analyzeChampion` has no output cap:
a champion whose curated ability carries eleven distinct-label threat
tags yields eleven entries. -/
theorem C7_overlay_uncapped_counterexample :
    (ThreatAnalyzer.analyzeChampion (some ⟨"X", "X", []⟩)
      (some (ThreatAnalyzer.ChampionsSummary.obj
        [("X", ⟨[⟨some ["KNOCKUP", "KNOCKBACK", "PULL", "NEARSIGHT", "SUPPRESSION",
                        "STUN", "ROOT", "SLEEP", "CHARM", "FEAR", "TAUNT"]⟩]⟩)]))).length = 11 := by
  decide

/-- C7 amended: both aggregators deduplicate by display label (so four
abilities that each produce "Shield" yield one entry), and the web app's
`analyzeThreats` caps its output at 10 entries; the overlay's
`analyzeChampion` deduplicates but has no cap. -/
theorem C7_dedup_and_cap_amended :
    (∀ (detail : Detail) (champion : Champion) (cs : String → Option Summary),
      (analyzeThreats detail champion cs).length ≤ 10) ∧
    (∀ (detail : Detail) (champion : Champion) (cs : String → Option Summary),
      (analyzeThreats detail champion cs).Pairwise (fun a b => a.label ≠ b.label)) ∧
    (∀ (champion : Option Champion) (cs : Option ThreatAnalyzer.ChampionsSummary),
      (ThreatAnalyzer.analyzeChampion champion cs).Pairwise
        (fun a b => a.label ≠ b.label)) ∧
    analyzeThreats ⟨some [⟨none, none⟩, ⟨none, none⟩, ⟨none, none⟩, ⟨none, none⟩]⟩
      ⟨"S", "S", []⟩
      (fun n => if n = "S" then
        some ⟨[⟨some ["SHIELD"]⟩, ⟨some ["SHIELD"]⟩, ⟨some ["SHIELD"]⟩, ⟨some ["SHIELD"]⟩]⟩
      else none) =
      [{ label := "Shield", severity := "medium", icon := "🛡️", cleansable := false, qssOnly := false }] :=
  ⟨analyzeThreats_length_le, analyzeThreats_labels_distinct,
    ThreatAnalyzer.analyzeChampion_labels_distinct, by decide⟩

/-- C8 counterexample: the STUN entry of the web app's tag table carries
no `qssOnly` field at all (`undefined`, embedded as `none`), so a
non-suppression classification does not carry `qssOnly == false`. -/
theorem C8_qssOnly_absent_counterexample :
    classifyThreatTags ["STUN"] =
      [some { type := "hard", ccType := "Stun", cleansable := true, qssOnly := none, color := "hard", note := none }] ∧
    ({ type := "hard", ccType := "Stun", cleansable := true, qssOnly := none, color := "hard", note := none } : Classification).qssOnly ≠
      some false := by
  decide

/-- C8 amended: in every classification produced by the tag table or the
text cascade, `qssOnly` is `true` exactly on the suppression-type
classification; non-suppression classifications carry either an explicit
`false` or no `qssOnly` field at all (never `true`). -/
theorem C8_qssOnly_suppression_amended :
    (∀ (t : String) (c : Classification), ccClassifications t = some c →
      (c.qssOnly = some true ↔ c.type = "suppression")) ∧
    (∀ (spell : Spell) (c : Classification), classifyCC spell = some c →
      (c.qssOnly = some true ↔ c.type = "suppression")) :=
  ⟨ccClassifications_qssOnly, classifyCC_qssOnly⟩

/-- C8 witness: the suppression table entry instantiates the invariant. -/
theorem C8_qssOnly_suppression_witness :
    (({ type := "suppression", ccType := "Suppression", cleansable := false, qssOnly := some true, color := "hard", note := none } : Classification).qssOnly = some true ↔
      ({ type := "suppression", ccType := "Suppression", cleansable := false, qssOnly := some true, color := "hard", note := none } : Classification).type = "suppression") :=
  C8_qssOnly_suppression_amended.1 "SUPPRESSION" _ rfl

/-- C9 counterexample: with no curated summary available, the overlay's
`analyzeChampion` falls back to role tags, so two champions identical
except for their role tags produce different classification output. -/
theorem C9_role_tags_counterexample :
    ThreatAnalyzer.analyzeChampion (some ⟨"A", "A", ["Assassin"]⟩) none ≠
    ThreatAnalyzer.analyzeChampion (some ⟨"A", "A", ["Support"]⟩) none := by
  decide

/-- C9 amended: the web app's `analyzeThreats` (and `classifyAbility`,
which never sees the champion) ignores role tags entirely, and the
overlay's `analyzeChampion` ignores them whenever the curated summary
yields at least one threat; only its empty-summary fallback
(`analyzeFromTags`) reads role tags. -/
theorem C9_role_tag_invariance_amended :
    (∀ (detail : Detail) (i nm : String) (t1 t2 : List String)
        (cs : String → Option Summary),
      analyzeThreats detail ⟨i, nm, t1⟩ cs = analyzeThreats detail ⟨i, nm, t2⟩ cs) ∧
    (∀ (i nm : String) (t1 t2 : List String)
        (cs : Option ThreatAnalyzer.ChampionsSummary),
      (ThreatAnalyzer.summaryThreats ⟨i, nm, t1⟩ cs).1 ≠ [] →
      ThreatAnalyzer.analyzeChampion (some ⟨i, nm, t1⟩) cs =
        ThreatAnalyzer.analyzeChampion (some ⟨i, nm, t2⟩) cs) := by
  constructor
  · intro detail i nm t1 t2 cs
    rfl
  · intro i nm t1 t2 cs hne
    simp only [ThreatAnalyzer.analyzeChampion]
    rw [show ThreatAnalyzer.summaryThreats ⟨i, nm, t2⟩ cs =
      ThreatAnalyzer.summaryThreats ⟨i, nm, t1⟩ cs from rfl]
    rw [if_neg (by simpa [List.isEmpty_iff] using hne),
      if_neg (by simpa [List.isEmpty_iff] using hne)]

/-- C9 witness: with a curated STUN entry present, changing the role
tags from Assassin to Support leaves the overlay output unchanged. -/
theorem C9_role_tag_invariance_witness :
    ThreatAnalyzer.analyzeChampion (some ⟨"X", "X", ["Assassin"]⟩)
      (some (ThreatAnalyzer.ChampionsSummary.obj [("X", ⟨[⟨some ["STUN"]⟩]⟩)])) =
    ThreatAnalyzer.analyzeChampion (some ⟨"X", "X", ["Support"]⟩)
      (some (ThreatAnalyzer.ChampionsSummary.obj [("X", ⟨[⟨some ["STUN"]⟩]⟩)])) :=
  C9_role_tag_invariance_amended.2 "X" "X" ["Assassin"] ["Support"]
    (some (ThreatAnalyzer.ChampionsSummary.obj [("X", ⟨[⟨some ["STUN"]⟩]⟩)]))
    (by decide)

/-- C10: the tag classifier itself does not deduplicate labels — on
`["ROOT", "SNARE"]` it returns two classifications both labeled "Root"
— while the champion-level `analyzeThreats` collapses them to a single
Root entry. -/
theorem C10_root_snare_duplicate_labels :
    classifyThreatTags ["ROOT", "SNARE"] =
      [ some { type := "hard", ccType := "Root", cleansable := true, qssOnly := none, color := "hard", note := none },
        some { type := "hard", ccType := "Root", cleansable := true, qssOnly := none, color := "hard", note := none } ] ∧
    analyzeThreats ⟨some [⟨none, none⟩]⟩ ⟨"R", "R", []⟩
      (fun n => if n = "R" then some ⟨[⟨some ["ROOT", "SNARE"]⟩]⟩ else none) =
      [{ label := "Root", severity := "high", icon := "🌿", cleansable := true, qssOnly := false }] := by
  decide
